import Mathlib

/-!
# TransactionTest — verification of the token-creation API route

Shallow embedding of `src/pages/api/create-token-v2.ts` (the two-phase
token-creation handler) together with the relevant constants from
`src/lib/constants.ts`.

Modelling conventions:
* JS `undefined` request fields are `Option` values; JS string truthiness
  (`!name`) is `present`.
* `prePurchaseAmount` is an `Option Int`; JS comparisons `undefined < 0`
  and `undefined > 0` are both `false`, mirrored by `jsLtZero`/`jsGtZero`.
* The external world (RPC, key decoding, key generation, signatures,
  transaction serialization) is an `Env` record of oracle values: the
  handler consumes them exactly where the source awaits the corresponding
  library call.  `tx1Size` is what `tx1.serialize().length` returns.
  The read-only RPC queries (rent minimum, balance, blockhash) are modelled
  as succeeding; the fallible operations driving the control flow of
  interest — `sendRawTransaction` and `confirmTransaction` of each phase —
  have explicit success flags and carried error messages.
* Besides the HTTP response, the model emits a trace of `Event`s recording
  every network call, every instruction added to a transaction, and every
  size check, in source order, so that "X happens before Y" and
  "no network call occurs" are provable statements.
* `BigInt(prePurchaseAmount) * BigInt(10 ** decimals)` is exact integer
  arithmetic, embedded as multiplication in `Int`.
-/

set_option maxRecDepth 8192

namespace TransactionTest

/-- `MAX_TRANSACTION_SIZE` from `create-token-v2.ts`. -/
def MAX_TRANSACTION_SIZE : Nat := 1232

/-- `COMPUTE_UNIT_LIMIT` from `create-token-v2.ts`. -/
def COMPUTE_UNIT_LIMIT : Nat := 400000

/-- `COMPUTE_UNIT_PRICE` from `create-token-v2.ts`. -/
def COMPUTE_UNIT_PRICE : Nat := 1

/-- `TOKEN_DECIMALS` from `src/lib/constants.ts` (the route's local
`decimals = 9` has the same value). -/
def TOKEN_DECIMALS : Nat := 9

/-- `MAX_PREPURCHASE_AMOUNT` from `src/lib/constants.ts`. -/
def MAX_PREPURCHASE_AMOUNT : Int := 1000000000

/-- `MINT_SIZE` from `@solana/spl-token`: byte size of a mint account. -/
def MINT_SIZE : Nat := 82

/-- `Math.ceil(0.01 * LAMPORTS_PER_SOL)`: the fixed fee buffer added to the
rent-exempt minimum (`0.01 * 1e9` evaluates to exactly `10000000`). -/
def feeBufferLamports : Nat := 10000000

/-- `CreateTokenRequest` from `create-token-v2.ts`; every field is optional
at the JSON level, so absent fields are `none`. -/
structure CreateTokenRequest where
  name : Option String
  symbol : Option String
  description : Option String
  prePurchaseAmount : Option Int
  userWallet : Option String
  deriving Repr, DecidableEq

/-- JS truthiness of a string-valued request field: present and non-empty. -/
def present : Option String → Bool
  | none => false
  | some s => !(s == "")

/-- JS `x < 0` where `x` may be `undefined` (`undefined < 0` is `false`). -/
def jsLtZero : Option Int → Bool
  | none => false
  | some n => n < 0

/-- JS `x > 0` where `x` may be `undefined` (`undefined > 0` is `false`). -/
def jsGtZero : Option Int → Bool
  | none => false
  | some n => n > 0

/-- One instruction added to a transaction, mirroring the instruction
factories called by the route. -/
inductive Instr where
  | setComputeUnitLimit (units : Nat)
  | setComputeUnitPrice (microLamports : Nat)
  | createAccount (space lamports : Nat)
  | initializeMint (decimals : Nat)
  | createMetadataV3 (name symbol uri : String)
  | createAssociatedTokenAccount
  | mintTo (amount : Int)
  deriving Repr, DecidableEq

/-- Observable steps of one handler run, in source order.  `rentQuery`,
`balanceQuery`, `blockhashFetch`, `submitted` and `confirmed` are network
round-trips; `built` and `sizeChecked` are local. -/
inductive Event where
  | rentQuery
  | balanceQuery
  | blockhashFetch
  | built (phase : Nat) (ix : Instr)
  | sizeChecked (phase : Nat) (size : Nat)
  | submitted (phase : Nat)
  | confirmed (phase : Nat)
  deriving Repr, DecidableEq

/-- Is the event a network round-trip? -/
def Event.isNetwork : Event → Bool
  | .rentQuery => true
  | .balanceQuery => true
  | .blockhashFetch => true
  | .submitted _ => true
  | .confirmed _ => true
  | _ => false

/-- The external world consumed by one run: configuration and key state,
RPC query answers, serialization size, submission/confirmation outcomes,
and the opaque generated/derived strings. -/
structure Env where
  backendKeyConfigured : Bool
  backendKeyValid : Bool
  userWalletValid : Bool
  rentLamports : Nat
  backendBalance : Nat
  tx1Size : Nat
  phase1SendOk : Bool
  phase1ConfirmOk : Bool
  phase2SendOk : Bool
  phase2ConfirmOk : Bool
  phase1ErrorMsg : String
  phase2ErrorMsg : String
  mintAddress : String
  sig1 : String
  sig2 : String
  ata : String
  deriving Repr, DecidableEq

/-- `lamports + Math.ceil(0.01 * LAMPORTS_PER_SOL)` from the route. -/
def requiredLamports (env : Env) : Nat := env.rentLamports + feeBufferLamports

/-- `CreateTokenResponse` plus the HTTP status it is sent with.  A `none`
field is absent from the JSON (`undefined`). -/
structure Response where
  status : Nat
  success : Bool
  mintAddress : Option String
  name : Option String
  symbol : Option String
  description : Option String
  prePurchaseAmount : Option Int
  signature : Option String
  mintSignature : Option String
  userTokenAccount : Option String
  error : Option String
  warnings : Option (List String)
  deriving Repr, DecidableEq

/-- An error response: `res.status(status).json(\x7b success: false, error \x7d)`. -/
def errResponse (status : Nat) (msg : String) : Response :=
  { status := status, success := false, mintAddress := none, name := none
    symbol := none, description := none, prePurchaseAmount := none
    signature := none, mintSignature := none, userTokenAccount := none
    error := some msg, warnings := none }

/-- Result of one handler run: the HTTP response and the event trace. -/
structure RunResult where
  resp : Response
  events : List Event
  deriving Repr, DecidableEq

/-- JS `s.includes(pat)` for the non-empty literals used by the route. -/
def includesStr (s pat : String) : Bool := (s.splitOn pat).length > 1

/-- The catch-block error classification of the route: substring-matches the
thrown message and rewrites known failure signatures, defaulting the empty
message to `Failed to create token`. -/
def classifyError (m : String) : String :=
  if m == "" then "Failed to create token"
  else if includesStr m "blockhash not found" then "Transaction expired. Please try again."
  else if includesStr m "insufficient funds" then "Insufficient SOL in backend wallet. Please fund it."
  else if includesStr m "Transaction too large" then "Transaction too large. Use shorter name/symbol."
  else m

/-- Advisory warning pushed when the description exceeds 200 characters. -/
def truncationWarning : String :=
  "Description truncated to 200 characters to fit transaction size limit"

/-- The insufficient-balance message (the interpolated SOL figure of the
source's template string is elided; no claim inspects it). -/
def insufficientMsg : String :=
  "Backend wallet has insufficient SOL. Please fund the backend wallet."

/-- `description && description.length > 200` from the route. -/
def descTooLong : Option String → Bool
  | none => false
  | some d => !(d == "") && d.length > 200

/-- Phase-1 instruction list: compute-budget pair, mint-account creation,
mint initialization, metadata creation — exactly the five `tx1.add` calls,
with the metadata fields `name.substring(0, 32)`, `symbol.substring(0, 10)`
and `uri: ''`. -/
def tx1Instrs (name symbol : String) (rentLamports : Nat) : List Instr :=
  [ .setComputeUnitLimit COMPUTE_UNIT_LIMIT
  , .setComputeUnitPrice COMPUTE_UNIT_PRICE
  , .createAccount MINT_SIZE rentLamports
  , .initializeMint TOKEN_DECIMALS
  , .createMetadataV3 (name.take 32) (symbol.take 10) "" ]

/-- Phase-2 instruction list: compute-unit limit, associated-token-account
creation, and mint-to with `BigInt(prePurchaseAmount) * BigInt(10 ** 9)`. -/
def tx2Instrs (n : Int) : List Instr :=
  [ .setComputeUnitLimit 200000
  , .createAssociatedTokenAccount
  , .mintTo (n * 10 ^ TOKEN_DECIMALS) ]

/-- The route's success response (`res.status(200).json(...)`): echoes the
request fields verbatim, reports the mint address and phase-1 signature,
and the phase-2 signature / associated account when phase 2 ran. -/
def successResponse (req : CreateTokenRequest) (env : Env)
    (msig uta : Option String) (ws : List String) : Response :=
  { status := 200, success := true, mintAddress := some env.mintAddress
    name := req.name, symbol := req.symbol, description := req.description
    prePurchaseAmount := req.prePurchaseAmount
    signature := some env.sig1, mintSignature := msig, userTokenAccount := uta
    error := none
    warnings := if ws.isEmpty then none else some ws }

/-!
The handler body is transcribed stage by stage, one definition per
straight-line segment between early returns.  The `events` accumulator and
the `warnings` list are threaded explicitly; the staging mirrors the
source's top-to-bottom order and changes neither control flow nor data.
-/

/-- Trace through the phase-1 size check: the rent and balance queries, the
blockhash fetch, the five `tx1.add` calls, and the size measurement. -/
def sizeCheckEvents (name symbol : String) (env : Env) : List Event :=
  [Event.rentQuery, Event.balanceQuery, Event.blockhashFetch]
  ++ (tx1Instrs name symbol env.rentLamports).map (Event.built 1)
  ++ [Event.sizeChecked 1 env.tx1Size]

/-- Trace through the phase-1 submission. -/
def submit1Events (name symbol : String) (env : Env) : List Event :=
  sizeCheckEvents name symbol env ++ [Event.submitted 1]

/-- Trace through the phase-1 confirmation. -/
def confirm1Events (name symbol : String) (env : Env) : List Event :=
  submit1Events name symbol env ++ [Event.confirmed 1]

/-- Phase-2 additions to the trace, through the phase-2 submission: a fresh
blockhash fetch, the three `tx2.add` calls, and the submission — with no
size check in between. -/
def phase2Events (req : CreateTokenRequest) (ev3 : List Event) : List Event :=
  ev3 ++ [Event.blockhashFetch]
  ++ (tx2Instrs (req.prePurchaseAmount.getD 0)).map (Event.built 2)
  ++ [Event.submitted 2]

/-- Phase-2 block (the body of `if (prePurchaseAmount > 0)`): blockhash
fetch, the three `tx2.add` calls, signing, submission and confirmation —
with no size check. `ev3` is the trace accumulated through phase-1
confirmation. -/
def runPhase2 (req : CreateTokenRequest) (env : Env) (warnings : List String)
    (ev3 : List Event) : RunResult :=
  if !env.phase2SendOk then
    ⟨errResponse 500 (classifyError env.phase2ErrorMsg), phase2Events req ev3⟩
  else if !env.phase2ConfirmOk then
    ⟨errResponse 500 (classifyError env.phase2ErrorMsg), phase2Events req ev3⟩
  else
    ⟨successResponse req env (some env.sig2) (some env.ata) warnings,
      phase2Events req ev3 ++ [Event.confirmed 2]⟩

/-- Phase-1 block: blockhash fetch, the five `tx1.add` calls, sign +
serialize + size check, submission, confirmation; then the phase-2 guard
`prePurchaseAmount > 0` or the single-phase success response. -/
def runPhase1 (name symbol : String) (req : CreateTokenRequest) (env : Env)
    (warnings : List String) : RunResult :=
  if env.tx1Size > MAX_TRANSACTION_SIZE then
    ⟨errResponse 400 "Transaction too large. Try shorter name/symbol.",
      sizeCheckEvents name symbol env⟩
  else if !env.phase1SendOk then
    ⟨errResponse 500 (classifyError env.phase1ErrorMsg), submit1Events name symbol env⟩
  else if !env.phase1ConfirmOk then
    ⟨errResponse 500 (classifyError env.phase1ErrorMsg), submit1Events name symbol env⟩
  else if jsGtZero req.prePurchaseAmount then
    runPhase2 req env warnings (confirm1Events name symbol env)
  else
    ⟨successResponse req env none none warnings, confirm1Events name symbol env⟩

/-- The up-front custodial balance check (`getMinimumBalanceForRentExemptMint`
then `getBalance` then the `backendBalance < requiredLamports` guard),
followed by the phase-1 block. -/
def checkBalance (name symbol : String) (req : CreateTokenRequest) (env : Env)
    (warnings : List String) : RunResult :=
  if env.backendBalance < requiredLamports env then
    ⟨errResponse 400 insufficientMsg, [Event.rentQuery, Event.balanceQuery]⟩
  else
    runPhase1 name symbol req env warnings

/-- Environment/keypair/wallet checks: `BACKEND_KEYPAIR_SECRET` present,
secret decodes to a keypair, `new PublicKey(userWallet)` parses. -/
def checkEnvironment (name symbol : String) (req : CreateTokenRequest) (env : Env)
    (warnings : List String) : RunResult :=
  if !env.backendKeyConfigured then
    ⟨errResponse 500 "Backend keypair not configured", []⟩
  else if !env.backendKeyValid then
    ⟨errResponse 500 "Invalid backend keypair format", []⟩
  else if !env.userWalletValid then
    ⟨errResponse 400 "Invalid user wallet address", []⟩
  else
    checkBalance name symbol req env warnings

/-- Input validation: required fields, name ≤ 32, symbol ≤ 10, the
description-length warning, and the negative-amount rejection — in source
order. -/
def validate (req : CreateTokenRequest) (env : Env) : RunResult :=
  if !present req.name || !present req.symbol || !present req.userWallet then
    ⟨errResponse 400 "Missing required fields: name, symbol, or userWallet", []⟩
  else
    let name := req.name.getD ""
    let symbol := req.symbol.getD ""
    if name.length > 32 then
      ⟨errResponse 400 "Token name must be 32 characters or less (Solana transaction size limit)", []⟩
    else if symbol.length > 10 then
      ⟨errResponse 400 "Symbol must be 10 characters or less", []⟩
    else
      let warnings : List String :=
        if descTooLong req.description then [truncationWarning] else []
      if jsLtZero req.prePurchaseAmount then
        ⟨errResponse 400 "Pre-purchase amount cannot be negative", []⟩
      else
        checkEnvironment name symbol req env warnings

/-- The `handler` of `src/pages/api/create-token-v2.ts`, as a function of
the HTTP method, the parsed request body, and the external world.  Control
flow, messages, statuses and the order of effects follow the source; the
thrown errors of `sendRawTransaction`/`confirmTransaction` land in the
catch block, modelled by returning `classifyError` responses in place. -/
def handler (method : String) (req : CreateTokenRequest) (env : Env) : RunResult :=
  if method != "POST" then
    ⟨errResponse 405 "Method not allowed", []⟩
  else
    validate req env

/-- The advisory-warning list computed by the validation stage. -/
def warningsOf (req : CreateTokenRequest) : List String :=
  if descTooLong req.description then [truncationWarning] else []

/-! ### Stage equations

One conditional equation per early return and per fall-through, used to
drive runs through the stages in proofs. -/

theorem handler_post (req : CreateTokenRequest) (env : Env) :
    handler "POST" req env = validate req env := by
  simp [handler]

theorem validate_missing (req : CreateTokenRequest) (env : Env)
    (h : (!present req.name || !present req.symbol || !present req.userWallet) = true) :
    validate req env =
      ⟨errResponse 400 "Missing required fields: name, symbol, or userWallet", []⟩ := by
  simp [validate, h]

theorem validate_nameLong (req : CreateTokenRequest) (env : Env)
    (h0 : (!present req.name || !present req.symbol || !present req.userWallet) = false)
    (h1 : (req.name.getD "").length > 32) :
    validate req env =
      ⟨errResponse 400 "Token name must be 32 characters or less (Solana transaction size limit)", []⟩ := by
  simp [validate, h0, h1]

theorem validate_symbolLong (req : CreateTokenRequest) (env : Env)
    (h0 : (!present req.name || !present req.symbol || !present req.userWallet) = false)
    (h1 : ¬ (req.name.getD "").length > 32)
    (h2 : (req.symbol.getD "").length > 10) :
    validate req env = ⟨errResponse 400 "Symbol must be 10 characters or less", []⟩ := by
  simp [validate, h0, h1, h2]

theorem validate_negative (req : CreateTokenRequest) (env : Env)
    (h0 : (!present req.name || !present req.symbol || !present req.userWallet) = false)
    (h1 : ¬ (req.name.getD "").length > 32)
    (h2 : ¬ (req.symbol.getD "").length > 10)
    (h3 : jsLtZero req.prePurchaseAmount = true) :
    validate req env = ⟨errResponse 400 "Pre-purchase amount cannot be negative", []⟩ := by
  simp [validate, h0, h1, h2, h3]

theorem validate_cont (req : CreateTokenRequest) (env : Env)
    (h0 : (!present req.name || !present req.symbol || !present req.userWallet) = false)
    (h1 : ¬ (req.name.getD "").length > 32)
    (h2 : ¬ (req.symbol.getD "").length > 10)
    (h3 : jsLtZero req.prePurchaseAmount = false) :
    validate req env =
      checkEnvironment (req.name.getD "") (req.symbol.getD "") req env (warningsOf req) := by
  simp [validate, warningsOf, h0, h1, h2, h3]

theorem checkEnvironment_noKey (name symbol : String) (req : CreateTokenRequest) (env : Env)
    (ws : List String) (h : env.backendKeyConfigured = false) :
    checkEnvironment name symbol req env ws =
      ⟨errResponse 500 "Backend keypair not configured", []⟩ := by
  simp [checkEnvironment, h]

theorem checkEnvironment_badKey (name symbol : String) (req : CreateTokenRequest) (env : Env)
    (ws : List String) (h0 : env.backendKeyConfigured = true) (h : env.backendKeyValid = false) :
    checkEnvironment name symbol req env ws =
      ⟨errResponse 500 "Invalid backend keypair format", []⟩ := by
  simp [checkEnvironment, h0, h]

theorem checkEnvironment_badWallet (name symbol : String) (req : CreateTokenRequest) (env : Env)
    (ws : List String) (h0 : env.backendKeyConfigured = true) (h1 : env.backendKeyValid = true)
    (h : env.userWalletValid = false) :
    checkEnvironment name symbol req env ws =
      ⟨errResponse 400 "Invalid user wallet address", []⟩ := by
  simp [checkEnvironment, h0, h1, h]

theorem checkEnvironment_cont (name symbol : String) (req : CreateTokenRequest) (env : Env)
    (ws : List String) (h0 : env.backendKeyConfigured = true) (h1 : env.backendKeyValid = true)
    (h2 : env.userWalletValid = true) :
    checkEnvironment name symbol req env ws = checkBalance name symbol req env ws := by
  simp [checkEnvironment, h0, h1, h2]

theorem checkBalance_insufficient (name symbol : String) (req : CreateTokenRequest) (env : Env)
    (ws : List String) (h : env.backendBalance < requiredLamports env) :
    checkBalance name symbol req env ws =
      ⟨errResponse 400 insufficientMsg, [Event.rentQuery, Event.balanceQuery]⟩ := by
  simp [checkBalance, h]

theorem checkBalance_cont (name symbol : String) (req : CreateTokenRequest) (env : Env)
    (ws : List String) (h : ¬ env.backendBalance < requiredLamports env) :
    checkBalance name symbol req env ws = runPhase1 name symbol req env ws := by
  simp [checkBalance, h]

theorem runPhase1_tooLarge (name symbol : String) (req : CreateTokenRequest) (env : Env)
    (ws : List String) (h : env.tx1Size > MAX_TRANSACTION_SIZE) :
    runPhase1 name symbol req env ws =
      ⟨errResponse 400 "Transaction too large. Try shorter name/symbol.",
        sizeCheckEvents name symbol env⟩ := by
  simp [runPhase1, h]

theorem runPhase1_sendFail (name symbol : String) (req : CreateTokenRequest) (env : Env)
    (ws : List String) (h0 : ¬ env.tx1Size > MAX_TRANSACTION_SIZE)
    (h : env.phase1SendOk = false) :
    runPhase1 name symbol req env ws =
      ⟨errResponse 500 (classifyError env.phase1ErrorMsg), submit1Events name symbol env⟩ := by
  simp [runPhase1, h0, h]

theorem runPhase1_confirmFail (name symbol : String) (req : CreateTokenRequest) (env : Env)
    (ws : List String) (h0 : ¬ env.tx1Size > MAX_TRANSACTION_SIZE)
    (h1 : env.phase1SendOk = true) (h : env.phase1ConfirmOk = false) :
    runPhase1 name symbol req env ws =
      ⟨errResponse 500 (classifyError env.phase1ErrorMsg), submit1Events name symbol env⟩ := by
  simp [runPhase1, h0, h1, h]

theorem runPhase1_single (name symbol : String) (req : CreateTokenRequest) (env : Env)
    (ws : List String) (h0 : ¬ env.tx1Size > MAX_TRANSACTION_SIZE)
    (h1 : env.phase1SendOk = true) (h2 : env.phase1ConfirmOk = true)
    (h3 : jsGtZero req.prePurchaseAmount = false) :
    runPhase1 name symbol req env ws =
      ⟨successResponse req env none none ws, confirm1Events name symbol env⟩ := by
  simp [runPhase1, h0, h1, h2, h3]

theorem runPhase1_phase2 (name symbol : String) (req : CreateTokenRequest) (env : Env)
    (ws : List String) (h0 : ¬ env.tx1Size > MAX_TRANSACTION_SIZE)
    (h1 : env.phase1SendOk = true) (h2 : env.phase1ConfirmOk = true)
    (h3 : jsGtZero req.prePurchaseAmount = true) :
    runPhase1 name symbol req env ws = runPhase2 req env ws (confirm1Events name symbol env) := by
  simp [runPhase1, h0, h1, h2, h3]

theorem runPhase2_sendFail (req : CreateTokenRequest) (env : Env) (ws : List String)
    (ev3 : List Event) (h : env.phase2SendOk = false) :
    runPhase2 req env ws ev3 =
      ⟨errResponse 500 (classifyError env.phase2ErrorMsg), phase2Events req ev3⟩ := by
  simp [runPhase2, h]

theorem runPhase2_confirmFail (req : CreateTokenRequest) (env : Env) (ws : List String)
    (ev3 : List Event) (h0 : env.phase2SendOk = true) (h : env.phase2ConfirmOk = false) :
    runPhase2 req env ws ev3 =
      ⟨errResponse 500 (classifyError env.phase2ErrorMsg), phase2Events req ev3⟩ := by
  simp [runPhase2, h0, h]

theorem runPhase2_success (req : CreateTokenRequest) (env : Env) (ws : List String)
    (ev3 : List Event) (h0 : env.phase2SendOk = true) (h1 : env.phase2ConfirmOk = true) :
    runPhase2 req env ws ev3 =
      ⟨successResponse req env (some env.sig2) (some env.ata) ws,
        phase2Events req ev3 ++ [Event.confirmed 2]⟩ := by
  simp [runPhase2, h0, h1]

/-! ### Run classification -/

/-- All four validation guards passed (fields present, name ≤ 32,
symbol ≤ 10, amount not negative). -/
def passedValidation (req : CreateTokenRequest) : Prop :=
  (!present req.name || !present req.symbol || !present req.userWallet) = false
  ∧ ¬ (req.name.getD "").length > 32
  ∧ ¬ (req.symbol.getD "").length > 10
  ∧ jsLtZero req.prePurchaseAmount = false

/-- Keypair configured and valid, user wallet address parses. -/
def passedEnvChecks (env : Env) : Prop :=
  env.backendKeyConfigured = true ∧ env.backendKeyValid = true ∧ env.userWalletValid = true

/-- Phase 1 passed the size check, was submitted, and confirmed. -/
def phase1Confirmed (env : Env) : Prop :=
  ¬ env.tx1Size > MAX_TRANSACTION_SIZE
  ∧ env.phase1SendOk = true ∧ env.phase1ConfirmOk = true

/-- Exhaustive classification of a handler run: one disjunct per terminal
outcome, each carrying the guard conditions along its path and the exact
response/trace it produces. -/
theorem run_cases (m : String) (req : CreateTokenRequest) (env : Env) :
    ((m != "POST") = true
      ∧ handler m req env = ⟨errResponse 405 "Method not allowed", []⟩)
  ∨ ((!present req.name || !present req.symbol || !present req.userWallet) = true
      ∧ handler m req env =
        ⟨errResponse 400 "Missing required fields: name, symbol, or userWallet", []⟩)
  ∨ ((!present req.name || !present req.symbol || !present req.userWallet) = false
      ∧ (req.name.getD "").length > 32
      ∧ handler m req env =
        ⟨errResponse 400 "Token name must be 32 characters or less (Solana transaction size limit)", []⟩)
  ∨ ((!present req.name || !present req.symbol || !present req.userWallet) = false
      ∧ ¬ (req.name.getD "").length > 32
      ∧ (req.symbol.getD "").length > 10
      ∧ handler m req env = ⟨errResponse 400 "Symbol must be 10 characters or less", []⟩)
  ∨ ((!present req.name || !present req.symbol || !present req.userWallet) = false
      ∧ ¬ (req.name.getD "").length > 32
      ∧ ¬ (req.symbol.getD "").length > 10
      ∧ jsLtZero req.prePurchaseAmount = true
      ∧ handler m req env = ⟨errResponse 400 "Pre-purchase amount cannot be negative", []⟩)
  ∨ (passedValidation req ∧ env.backendKeyConfigured = false
      ∧ handler m req env = ⟨errResponse 500 "Backend keypair not configured", []⟩)
  ∨ (passedValidation req ∧ env.backendKeyConfigured = true ∧ env.backendKeyValid = false
      ∧ handler m req env = ⟨errResponse 500 "Invalid backend keypair format", []⟩)
  ∨ (passedValidation req ∧ env.backendKeyConfigured = true ∧ env.backendKeyValid = true
      ∧ env.userWalletValid = false
      ∧ handler m req env = ⟨errResponse 400 "Invalid user wallet address", []⟩)
  ∨ (passedValidation req ∧ passedEnvChecks env
      ∧ env.backendBalance < requiredLamports env
      ∧ handler m req env =
        ⟨errResponse 400 insufficientMsg, [Event.rentQuery, Event.balanceQuery]⟩)
  ∨ (passedValidation req ∧ passedEnvChecks env
      ∧ ¬ env.backendBalance < requiredLamports env
      ∧ env.tx1Size > MAX_TRANSACTION_SIZE
      ∧ handler m req env =
        ⟨errResponse 400 "Transaction too large. Try shorter name/symbol.",
          sizeCheckEvents (req.name.getD "") (req.symbol.getD "") env⟩)
  ∨ (passedValidation req ∧ passedEnvChecks env
      ∧ ¬ env.backendBalance < requiredLamports env
      ∧ ¬ env.tx1Size > MAX_TRANSACTION_SIZE
      ∧ (env.phase1SendOk = false ∨ (env.phase1SendOk = true ∧ env.phase1ConfirmOk = false))
      ∧ handler m req env =
        ⟨errResponse 500 (classifyError env.phase1ErrorMsg),
          submit1Events (req.name.getD "") (req.symbol.getD "") env⟩)
  ∨ (passedValidation req ∧ passedEnvChecks env
      ∧ ¬ env.backendBalance < requiredLamports env
      ∧ phase1Confirmed env
      ∧ jsGtZero req.prePurchaseAmount = false
      ∧ handler m req env =
        ⟨successResponse req env none none (warningsOf req),
          confirm1Events (req.name.getD "") (req.symbol.getD "") env⟩)
  ∨ (passedValidation req ∧ passedEnvChecks env
      ∧ ¬ env.backendBalance < requiredLamports env
      ∧ phase1Confirmed env
      ∧ jsGtZero req.prePurchaseAmount = true
      ∧ (env.phase2SendOk = false ∨ (env.phase2SendOk = true ∧ env.phase2ConfirmOk = false))
      ∧ handler m req env =
        ⟨errResponse 500 (classifyError env.phase2ErrorMsg),
          phase2Events req (confirm1Events (req.name.getD "") (req.symbol.getD "") env)⟩)
  ∨ (passedValidation req ∧ passedEnvChecks env
      ∧ ¬ env.backendBalance < requiredLamports env
      ∧ phase1Confirmed env
      ∧ jsGtZero req.prePurchaseAmount = true
      ∧ env.phase2SendOk = true ∧ env.phase2ConfirmOk = true
      ∧ handler m req env =
        ⟨successResponse req env (some env.sig2) (some env.ata) (warningsOf req),
          phase2Events req (confirm1Events (req.name.getD "") (req.symbol.getD "") env)
            ++ [Event.confirmed 2]⟩) := by
  cases hm : (m != "POST") with
  | true =>
    exact Or.inl ⟨rfl, by simp [handler, hm]⟩
  | false =>
    have hh : handler m req env = validate req env := by simp [handler, hm]
    cases h0 : (!present req.name || !present req.symbol || !present req.userWallet) with
    | true =>
      iterate 1 right
      exact Or.inl ⟨rfl, hh.trans (validate_missing req env h0)⟩
    | false =>
      by_cases h1 : (req.name.getD "").length > 32
      · iterate 2 right
        exact Or.inl ⟨rfl, h1, hh.trans (validate_nameLong req env h0 h1)⟩
      by_cases h2 : (req.symbol.getD "").length > 10
      · iterate 3 right
        exact Or.inl ⟨rfl, h1, h2, hh.trans (validate_symbolLong req env h0 h1 h2)⟩
      cases h3 : jsLtZero req.prePurchaseAmount with
      | true =>
        iterate 4 right
        exact Or.inl ⟨rfl, h1, h2, rfl, hh.trans (validate_negative req env h0 h1 h2 h3)⟩
      | false =>
        have pv : passedValidation req := ⟨h0, h1, h2, h3⟩
        have hv : handler m req env =
            checkEnvironment (req.name.getD "") (req.symbol.getD "") req env (warningsOf req) :=
          hh.trans (validate_cont req env h0 h1 h2 h3)
        cases h4 : env.backendKeyConfigured with
        | false =>
          iterate 5 right
          exact Or.inl ⟨pv, rfl, hv.trans (checkEnvironment_noKey _ _ _ _ _ h4)⟩
        | true =>
          cases h5 : env.backendKeyValid with
          | false =>
            iterate 6 right
            exact Or.inl ⟨pv, rfl, rfl, hv.trans (checkEnvironment_badKey _ _ _ _ _ h4 h5)⟩
          | true =>
            cases h6 : env.userWalletValid with
            | false =>
              iterate 7 right
              exact Or.inl ⟨pv, rfl, rfl, rfl, hv.trans (checkEnvironment_badWallet _ _ _ _ _ h4 h5 h6)⟩
            | true =>
              have pec : passedEnvChecks env := ⟨h4, h5, h6⟩
              have hcb : handler m req env =
                  checkBalance (req.name.getD "") (req.symbol.getD "") req env (warningsOf req) :=
                hv.trans (checkEnvironment_cont _ _ _ _ _ h4 h5 h6)
              by_cases h7 : env.backendBalance < requiredLamports env
              · iterate 8 right
                exact Or.inl ⟨pv, pec, h7, hcb.trans (checkBalance_insufficient _ _ _ _ _ h7)⟩
              have hp1 : handler m req env =
                  runPhase1 (req.name.getD "") (req.symbol.getD "") req env (warningsOf req) :=
                hcb.trans (checkBalance_cont _ _ _ _ _ h7)
              by_cases h8 : env.tx1Size > MAX_TRANSACTION_SIZE
              · iterate 9 right
                exact Or.inl ⟨pv, pec, h7, h8, hp1.trans (runPhase1_tooLarge _ _ _ _ _ h8)⟩
              cases h9 : env.phase1SendOk with
              | false =>
                iterate 10 right
                exact Or.inl ⟨pv, pec, h7, h8, Or.inl rfl,
                  hp1.trans (runPhase1_sendFail _ _ _ _ _ h8 h9)⟩
              | true =>
                cases h10 : env.phase1ConfirmOk with
                | false =>
                  iterate 10 right
                  exact Or.inl ⟨pv, pec, h7, h8, Or.inr ⟨rfl, rfl⟩,
                    hp1.trans (runPhase1_confirmFail _ _ _ _ _ h8 h9 h10)⟩
                | true =>
                  have p1c : phase1Confirmed env := ⟨h8, h9, h10⟩
                  cases h11 : jsGtZero req.prePurchaseAmount with
                  | false =>
                    iterate 11 right
                    exact Or.inl ⟨pv, pec, h7, p1c, rfl,
                      hp1.trans (runPhase1_single _ _ _ _ _ h8 h9 h10 h11)⟩
                  | true =>
                    have hp2 : handler m req env =
                        runPhase2 req env (warningsOf req)
                          (confirm1Events (req.name.getD "") (req.symbol.getD "") env) :=
                      hp1.trans (runPhase1_phase2 _ _ _ _ _ h8 h9 h10 h11)
                    cases h12 : env.phase2SendOk with
                    | false =>
                      iterate 12 right
                      exact Or.inl ⟨pv, pec, h7, p1c, rfl, Or.inl rfl,
                        hp2.trans (runPhase2_sendFail _ _ _ _ h12)⟩
                    | true =>
                      cases h13 : env.phase2ConfirmOk with
                      | false =>
                        iterate 12 right
                        exact Or.inl ⟨pv, pec, h7, p1c, rfl, Or.inr ⟨rfl, rfl⟩,
                          hp2.trans (runPhase2_confirmFail _ _ _ _ h12 h13)⟩
                      | true =>
                        iterate 13 right
                        exact ⟨pv, pec, h7, p1c, rfl, rfl, rfl,
                          hp2.trans (runPhase2_success _ _ _ _ h12 h13)⟩

/-! ### Trace decomposition helpers -/

/-- A trace with no `built` event satisfies the check-before-build property
vacuously. -/
theorem no_built_decomp (t : List Event) (hno : ∀ p ix, Event.built p ix ∉ t) :
    ∀ pre post p ix, t = pre ++ Event.built p ix :: post → Event.balanceQuery ∈ pre := by
  intro pre post p ix h
  exact absurd (h ▸ List.mem_append.2 (Or.inr (List.mem_cons_self _ _))) (hno p ix)

/-- In a trace that starts with the rent query and the balance query, any
`built` event is preceded by the balance query. -/
theorem built_decomp_mem (t : List Event)
    (hshape : t.take 2 = [Event.rentQuery, Event.balanceQuery]) :
    ∀ pre post p ix, t = pre ++ Event.built p ix :: post → Event.balanceQuery ∈ pre := by
  cases t with
  | nil => simp at hshape
  | cons x t1 =>
    cases t1 with
    | nil => simp at hshape
    | cons y t2 =>
      simp only [List.take_succ_cons, List.take_zero, List.cons.injEq, and_true] at hshape
      obtain ⟨hx, hy⟩ := hshape
      subst hx
      subst hy
      intro pre post p ix h
      cases pre with
      | nil => simp at h
      | cons a pre1 =>
        cases pre1 with
        | nil => simp at h
        | cons b pre2 =>
          simp only [List.cons_append, List.cons.injEq] at h
          simp [← h.2.1]

/-! ### Concrete fixtures -/

/-- A world in which every external operation succeeds, with realistic
rent (the devnet rent-exempt minimum for 82 bytes), balance, and size. -/
def goodEnv : Env :=
  { backendKeyConfigured := true, backendKeyValid := true, userWalletValid := true
    rentLamports := 1461600, backendBalance := 100000000, tx1Size := 700
    phase1SendOk := true, phase1ConfirmOk := true
    phase2SendOk := true, phase2ConfirmOk := true
    phase1ErrorMsg := "", phase2ErrorMsg := ""
    mintAddress := "4Nd1mYQZ", sig1 := "sigOne", sig2 := "sigTwo", ata := "ataAddr" }

/-- Request whose pre-purchase amount exceeds `MAX_PREPURCHASE_AMOUNT`. -/
def c3Req : CreateTokenRequest :=
  { name := some "Cap", symbol := some "CAP", description := none
    prePurchaseAmount := some 1000000001, userWallet := some "W3" }

/-- Scenario C request: a 13-character ticker symbol. -/
def c6Req : CreateTokenRequest :=
  { name := some "Tok", symbol := some "TOOLONGTICKER", description := none
    prePurchaseAmount := some 0, userWallet := some "W6" }

/-! ### C3 -/

/-- C3 counterexample: a request whose `prePurchaseAmount` exceeds
`MAX_PREPURCHASE_AMOUNT` (1 000 000 001 > 10⁹) is not rejected with a 400:
the run succeeds with HTTP 200, instructions are built, and the over-limit
amount flows straight into the mint-to instruction. -/
theorem c3_counterexample :
    MAX_PREPURCHASE_AMOUNT < 1000000001
    ∧ c3Req.prePurchaseAmount = some 1000000001
    ∧ (handler "POST" c3Req goodEnv).resp.status = 200
    ∧ Event.built 2 (Instr.mintTo 1000000001000000000) ∈ (handler "POST" c3Req goodEnv).events := by
  refine ⟨by decide, by decide, by decide, by decide⟩

/-- C3 (amended): the route validates only negativity of the amount — a
negative `prePurchaseAmount` yields HTTP 400 with no instruction built and
no network call; no integrality or maximum check exists. -/
theorem c3_negative_only (m : String) (req : CreateTokenRequest) (env : Env)
    (hm : m = "POST") (h : jsLtZero req.prePurchaseAmount = true) :
    (handler m req env).resp.status = 400 ∧ (handler m req env).resp.success = false ∧
    (handler m req env).events = [] := by
  subst hm
  rcases run_cases "POST" req env with ⟨hc, he⟩ | ⟨hc, he⟩ | ⟨hc, h1, he⟩ | ⟨hc, h1, h2, he⟩
    | ⟨hc, h1, h2, h3, he⟩ | ⟨pv, hc, he⟩ | ⟨pv, hc1, hc2, he⟩ | ⟨pv, hc1, hc2, hc3, he⟩
    | ⟨pv, pec, hc, he⟩ | ⟨pv, pec, hc, hc2, he⟩ | ⟨pv, pec, hc, hc2, hc3, he⟩
    | ⟨pv, pec, hc, p1c, hc2, he⟩ | ⟨pv, pec, hc, p1c, hc2, hc3, he⟩
    | ⟨pv, pec, hc, p1c, hc2, hc3, hc4, he⟩
  · simp at hc
  · rw [he]; exact ⟨rfl, rfl, rfl⟩
  · rw [he]; exact ⟨rfl, rfl, rfl⟩
  · rw [he]; exact ⟨rfl, rfl, rfl⟩
  · rw [he]; exact ⟨rfl, rfl, rfl⟩
  all_goals exact absurd (pv.2.2.2.symm.trans h) (by decide)

/-- C3 witness: a concrete negative amount is rejected with 400 and an
empty trace. -/
theorem c3_witness :
    (handler "POST"
      { name := some "Neg", symbol := some "NEG", description := none
        prePurchaseAmount := some (-7), userWallet := some "W" } goodEnv).resp.status = 400
    ∧ (handler "POST"
      { name := some "Neg", symbol := some "NEG", description := none
        prePurchaseAmount := some (-7), userWallet := some "W" } goodEnv).resp.success = false
    ∧ (handler "POST"
      { name := some "Neg", symbol := some "NEG", description := none
        prePurchaseAmount := some (-7), userWallet := some "W" } goodEnv).events = [] :=
  c3_negative_only "POST" _ goodEnv rfl (by decide)

/-! ### C6 -/

/-- C6: a request with an over-long name or over-long symbol is rejected
with HTTP 400 and the run makes no network call at all (its event trace is
empty). -/
theorem c6_validation_no_network (m : String) (req : CreateTokenRequest) (env : Env)
    (n s : String) (hm : m = "POST") (hn : req.name = some n) (hs : req.symbol = some s)
    (h : n.length > 32 ∨ s.length > 10) :
    (handler m req env).resp.status = 400 ∧ (handler m req env).resp.success = false ∧
    (handler m req env).events = [] := by
  subst hm
  rcases run_cases "POST" req env with ⟨hc, he⟩ | ⟨hc, he⟩ | ⟨hc, h1, he⟩ | ⟨hc, h1, h2, he⟩
    | ⟨hc, h1, h2, h3, he⟩ | ⟨pv, hc, he⟩ | ⟨pv, hc1, hc2, he⟩ | ⟨pv, hc1, hc2, hc3, he⟩
    | ⟨pv, pec, hc, he⟩ | ⟨pv, pec, hc, hc2, he⟩ | ⟨pv, pec, hc, hc2, hc3, he⟩
    | ⟨pv, pec, hc, p1c, hc2, he⟩ | ⟨pv, pec, hc, p1c, hc2, hc3, he⟩
    | ⟨pv, pec, hc, p1c, hc2, hc3, hc4, he⟩
  · simp at hc
  · rw [he]; exact ⟨rfl, rfl, rfl⟩
  · rw [he]; exact ⟨rfl, rfl, rfl⟩
  · rw [he]; exact ⟨rfl, rfl, rfl⟩
  · rw [he]; exact ⟨rfl, rfl, rfl⟩
  all_goals
    exfalso
    rcases pv with ⟨-, hb, hc5, -⟩
    rw [hn] at hb
    rw [hs] at hc5
    simp at hb hc5
    omega

/-- C6 witness: Scenario C — a 13-character symbol gives HTTP 400 with an
empty trace. -/
theorem c6_witness :
    (handler "POST" c6Req goodEnv).resp.status = 400
    ∧ (handler "POST" c6Req goodEnv).resp.success = false
    ∧ (handler "POST" c6Req goodEnv).events = [] :=
  c6_validation_no_network "POST" c6Req goodEnv "Tok" "TOOLONGTICKER" rfl rfl rfl
    (Or.inr (by decide))

/-! ### C7 -/

/-- Scenario D request and an underfunded custodial wallet. -/
def c7Req : CreateTokenRequest :=
  { name := some "Broke", symbol := some "BRK", description := none
    prePurchaseAmount := some 1, userWallet := some "W7" }

/-- World with a custodial balance below rent + fee buffer. -/
def c7Env : Env := { goodEnv with backendBalance := 5 }

/-- C7: in every run, any built instruction is preceded in the trace by the
custodial balance query; and when the balance is below the rent-exempt
minimum plus the fixed fee buffer, the run fails with zero instructions
built, zero submissions, and — whenever the check was reached — an HTTP 400
carrying the insufficient-funds message. -/
theorem c7_preflight (m : String) (req : CreateTokenRequest) (env : Env) :
    (∀ pre post p ix, (handler m req env).events = pre ++ Event.built p ix :: post →
        Event.balanceQuery ∈ pre)
    ∧ (env.backendBalance < requiredLamports env →
        (handler m req env).resp.success = false
        ∧ (∀ p ix, Event.built p ix ∉ (handler m req env).events)
        ∧ (∀ p, Event.submitted p ∉ (handler m req env).events))
    ∧ (env.backendBalance < requiredLamports env →
        Event.balanceQuery ∈ (handler m req env).events →
        (handler m req env).resp.status = 400
        ∧ (handler m req env).resp.error = some insufficientMsg) := by
  rcases run_cases m req env with ⟨hc, he⟩ | ⟨hc, he⟩ | ⟨hc, h1, he⟩ | ⟨hc, h1, h2, he⟩
    | ⟨hc, h1, h2, h3, he⟩ | ⟨pv, hc, he⟩ | ⟨pv, hc1, hc2, he⟩ | ⟨pv, hc1, hc2, hc3, he⟩
    | ⟨pv, pec, hc, he⟩ | ⟨pv, pec, hc, hc2, he⟩ | ⟨pv, pec, hc, hc2, hc3, he⟩
    | ⟨pv, pec, hc, p1c, hc2, he⟩ | ⟨pv, pec, hc, p1c, hc2, hc3, he⟩
    | ⟨pv, pec, hc, p1c, hc2, hc3, hc4, he⟩
  · rw [he]
    exact ⟨no_built_decomp _ (by simp), fun _ => ⟨rfl, by simp, by simp⟩,
      fun _ hmem => by simp at hmem⟩
  · rw [he]
    exact ⟨no_built_decomp _ (by simp), fun _ => ⟨rfl, by simp, by simp⟩,
      fun _ hmem => by simp at hmem⟩
  · rw [he]
    exact ⟨no_built_decomp _ (by simp), fun _ => ⟨rfl, by simp, by simp⟩,
      fun _ hmem => by simp at hmem⟩
  · rw [he]
    exact ⟨no_built_decomp _ (by simp), fun _ => ⟨rfl, by simp, by simp⟩,
      fun _ hmem => by simp at hmem⟩
  · rw [he]
    exact ⟨no_built_decomp _ (by simp), fun _ => ⟨rfl, by simp, by simp⟩,
      fun _ hmem => by simp at hmem⟩
  · rw [he]
    exact ⟨no_built_decomp _ (by simp), fun _ => ⟨rfl, by simp, by simp⟩,
      fun _ hmem => by simp at hmem⟩
  · rw [he]
    exact ⟨no_built_decomp _ (by simp), fun _ => ⟨rfl, by simp, by simp⟩,
      fun _ hmem => by simp at hmem⟩
  · rw [he]
    exact ⟨no_built_decomp _ (by simp), fun _ => ⟨rfl, by simp, by simp⟩,
      fun _ hmem => by simp at hmem⟩
  · rw [he]
    exact ⟨no_built_decomp _ (by simp), fun _ => ⟨rfl, by simp, by simp⟩,
      fun _ _ => ⟨rfl, rfl⟩⟩
  · rw [he]
    exact ⟨built_decomp_mem _ (by simp [sizeCheckEvents]),
      fun hins => absurd hins hc, fun hins _ => absurd hins hc⟩
  · rw [he]
    exact ⟨built_decomp_mem _ (by simp [submit1Events, sizeCheckEvents]),
      fun hins => absurd hins hc, fun hins _ => absurd hins hc⟩
  · rw [he]
    exact ⟨built_decomp_mem _ (by simp [confirm1Events, submit1Events, sizeCheckEvents]),
      fun hins => absurd hins hc, fun hins _ => absurd hins hc⟩
  · rw [he]
    exact ⟨built_decomp_mem _
        (by simp [phase2Events, confirm1Events, submit1Events, sizeCheckEvents]),
      fun hins => absurd hins hc, fun hins _ => absurd hins hc⟩
  · rw [he]
    exact ⟨built_decomp_mem _
        (by simp [phase2Events, confirm1Events, submit1Events, sizeCheckEvents]),
      fun hins => absurd hins hc, fun hins _ => absurd hins hc⟩

/-- C7 witness: Scenario D — an underfunded custodial wallet yields the
insufficient-funds 400. -/
theorem c7_witness :
    (handler "POST" c7Req c7Env).resp.status = 400
    ∧ (handler "POST" c7Req c7Env).resp.error = some insufficientMsg :=
  (c7_preflight "POST" c7Req c7Env).2.2 (by decide) (by decide)

/-! ### C2 -/

/-- A pre-purchase request driving both phases. -/
def c2Req : CreateTokenRequest :=
  { name := some "Sized", symbol := some "SZ", description := none
    prePurchaseAmount := some 3, userWallet := some "W2" }

/-- Is the event a size check of phase 2? -/
def isPhase2SizeCheck : Event → Bool
  | .sizeChecked 2 _ => true
  | _ => false

/-- C2 counterexample: a run that submits the phase-2 transaction contains
no phase-2 size check anywhere in its trace — the code never measures tx2. -/
theorem c2_counterexample :
    Event.submitted 2 ∈ (handler "POST" c2Req goodEnv).events
    ∧ ((handler "POST" c2Req goodEnv).events.all fun e => !isPhase2SizeCheck e) = true := by
  exact ⟨by decide, by decide⟩

/-- C2 (amended): any submission (of either phase) is preceded by the
phase-1 size check having passed the 1232-byte ceiling — an oversized
phase-1 plan is rejected with zero submissions — but the phase-2
transaction itself is never size-checked. -/
theorem c2_size_check_phase1_only (m : String) (req : CreateTokenRequest) (env : Env) (p : Nat)
    (h : Event.submitted p ∈ (handler m req env).events) :
    env.tx1Size ≤ MAX_TRANSACTION_SIZE
    ∧ Event.sizeChecked 1 env.tx1Size ∈ (handler m req env).events
    ∧ ∀ s, Event.sizeChecked 2 s ∉ (handler m req env).events := by
  rcases run_cases m req env with ⟨hc, he⟩ | ⟨hc, he⟩ | ⟨hc, h1, he⟩ | ⟨hc, h1, h2, he⟩
    | ⟨hc, h1, h2, h3, he⟩ | ⟨pv, hc, he⟩ | ⟨pv, hc1, hc2, he⟩ | ⟨pv, hc1, hc2, hc3, he⟩
    | ⟨pv, pec, hc, he⟩ | ⟨pv, pec, hc, hc2, he⟩ | ⟨pv, pec, hc, hc2, hc3, he⟩
    | ⟨pv, pec, hc, p1c, hc2, he⟩ | ⟨pv, pec, hc, p1c, hc2, hc3, he⟩
    | ⟨pv, pec, hc, p1c, hc2, hc3, hc4, he⟩
  · rw [he] at h; simp at h
  · rw [he] at h; simp at h
  · rw [he] at h; simp at h
  · rw [he] at h; simp at h
  · rw [he] at h; simp at h
  · rw [he] at h; simp at h
  · rw [he] at h; simp at h
  · rw [he] at h; simp at h
  · rw [he] at h; simp at h
  · rw [he] at h; simp [sizeCheckEvents, tx1Instrs] at h
  · refine ⟨Nat.le_of_not_lt hc2, ?_, fun s => ?_⟩
    · rw [he]; simp [submit1Events, sizeCheckEvents, tx1Instrs]
    · rw [he]; simp [submit1Events, sizeCheckEvents, tx1Instrs]
  · refine ⟨Nat.le_of_not_lt p1c.1, ?_, fun s => ?_⟩
    · rw [he]; simp [confirm1Events, submit1Events, sizeCheckEvents, tx1Instrs]
    · rw [he]; simp [confirm1Events, submit1Events, sizeCheckEvents, tx1Instrs]
  · refine ⟨Nat.le_of_not_lt p1c.1, ?_, fun s => ?_⟩
    · rw [he]
      simp [phase2Events, confirm1Events, submit1Events, sizeCheckEvents, tx1Instrs, tx2Instrs]
    · rw [he]
      simp [phase2Events, confirm1Events, submit1Events, sizeCheckEvents, tx1Instrs, tx2Instrs]
  · refine ⟨Nat.le_of_not_lt p1c.1, ?_, fun s => ?_⟩
    · rw [he]
      simp [phase2Events, confirm1Events, submit1Events, sizeCheckEvents, tx1Instrs, tx2Instrs]
    · rw [he]
      simp [phase2Events, confirm1Events, submit1Events, sizeCheckEvents, tx1Instrs, tx2Instrs]

/-- C2 witness: a concrete two-phase run submits under the ceiling with the
phase-1 size check in its trace. -/
theorem c2_witness :
    goodEnv.tx1Size ≤ MAX_TRANSACTION_SIZE
    ∧ Event.sizeChecked 1 goodEnv.tx1Size ∈ (handler "POST" c2Req goodEnv).events :=
  ⟨(c2_size_check_phase1_only "POST" c2Req goodEnv 2 (by decide)).1,
   (c2_size_check_phase1_only "POST" c2Req goodEnv 2 (by decide)).2.1⟩

/-! ### C1 -/

/-- A pre-purchase request whose phase-2 submission will fail. -/
def c1Req : CreateTokenRequest :=
  { name := some "Partial", symbol := some "PRT", description := none
    prePurchaseAmount := some 5, userWallet := some "W1" }

/-- World where phase 1 confirms but the phase-2 submission is rejected. -/
def c1Env : Env := { goodEnv with phase2SendOk := false, phase2ErrorMsg := "connection refused" }

/-- C1 counterexample: phase 1 confirms, phase 2 is submitted and fails —
yet the response is a plain 500 failure with no mint address at all. -/
theorem c1_counterexample :
    Event.confirmed 1 ∈ (handler "POST" c1Req c1Env).events
    ∧ Event.submitted 2 ∈ (handler "POST" c1Req c1Env).events
    ∧ Event.confirmed 2 ∉ (handler "POST" c1Req c1Env).events
    ∧ (handler "POST" c1Req c1Env).resp.success = false
    ∧ (handler "POST" c1Req c1Env).resp.status = 500
    ∧ (handler "POST" c1Req c1Env).resp.mintAddress = none := by
  exact ⟨by decide, by decide, by decide, by decide, by decide, by decide⟩

/-- C1 (amended): when phase 2 was submitted and its submission or
confirmation fails after phase 1 confirmed, the handler answers with the
generic classified failure — HTTP 500, `success = false` — and the
response carries no mint address and no signature; the partial success is
not distinguishable from a plain failure. -/
theorem c1_phase2_failure_drops_mint (m : String) (req : CreateTokenRequest) (env : Env)
    (h1 : Event.submitted 2 ∈ (handler m req env).events)
    (h2 : env.phase2SendOk = false ∨ env.phase2ConfirmOk = false) :
    (handler m req env).resp.status = 500
    ∧ (handler m req env).resp.success = false
    ∧ (handler m req env).resp.mintAddress = none
    ∧ (handler m req env).resp.signature = none
    ∧ (handler m req env).resp.error = some (classifyError env.phase2ErrorMsg)
    ∧ Event.confirmed 1 ∈ (handler m req env).events := by
  rcases run_cases m req env with ⟨hc, he⟩ | ⟨hc, he⟩ | ⟨hc, h3, he⟩ | ⟨hc, h3, h4, he⟩
    | ⟨hc, h3, h4, h5, he⟩ | ⟨pv, hc, he⟩ | ⟨pv, hc1, hc2, he⟩ | ⟨pv, hc1, hc2, hc3, he⟩
    | ⟨pv, pec, hc, he⟩ | ⟨pv, pec, hc, hc2, he⟩ | ⟨pv, pec, hc, hc2, hc3, he⟩
    | ⟨pv, pec, hc, p1c, hc2, he⟩ | ⟨pv, pec, hc, p1c, hc2, hc3, he⟩
    | ⟨pv, pec, hc, p1c, hc2, hc3, hc4, he⟩
  · rw [he] at h1; simp at h1
  · rw [he] at h1; simp at h1
  · rw [he] at h1; simp at h1
  · rw [he] at h1; simp at h1
  · rw [he] at h1; simp at h1
  · rw [he] at h1; simp at h1
  · rw [he] at h1; simp at h1
  · rw [he] at h1; simp at h1
  · rw [he] at h1; simp at h1
  · rw [he] at h1; simp [sizeCheckEvents, tx1Instrs] at h1
  · rw [he] at h1; simp [submit1Events, sizeCheckEvents, tx1Instrs] at h1
  · rw [he] at h1; simp [confirm1Events, submit1Events, sizeCheckEvents, tx1Instrs] at h1
  · rw [he]
    refine ⟨rfl, rfl, rfl, rfl, rfl, ?_⟩
    simp [phase2Events, confirm1Events, submit1Events, sizeCheckEvents, tx1Instrs, tx2Instrs]
  · rcases h2 with h2 | h2
    · exact absurd (hc3.symm.trans h2) (by decide)
    · exact absurd (hc4.symm.trans h2) (by decide)

/-- C1 witness: the concrete failed-phase-2 run goes through the amended
theorem. -/
theorem c1_witness :
    (handler "POST" c1Req c1Env).resp.status = 500
    ∧ (handler "POST" c1Req c1Env).resp.mintAddress = none :=
  ⟨(c1_phase2_failure_drops_mint "POST" c1Req c1Env (by decide) (Or.inl rfl)).1,
   (c1_phase2_failure_drops_mint "POST" c1Req c1Env (by decide) (Or.inl rfl)).2.2.1⟩

/-! ### C8 -/

/-- Scenario A request: `prePurchaseAmount = 1000`. -/
def c8Req : CreateTokenRequest :=
  { name := some "Test Token", symbol := some "TEST", description := some "A test token"
    prePurchaseAmount := some 1000, userWallet := some "W8" }

/-- C8: in every successful run with a positive integer amount `N`, the
mint-to instruction carries exactly `N * 10 ^ 9` base units (exact `Int`
arithmetic, decimals fixed at 9), and the response reports the phase-2
signature and the derived account address. -/
theorem c8_mint_amount_exact (m : String) (req : CreateTokenRequest) (env : Env) (N : Int)
    (hN : req.prePurchaseAmount = some N) (hpos : 0 < N)
    (h200 : (handler m req env).resp.status = 200) :
    Event.built 2 (Instr.mintTo (N * 10 ^ TOKEN_DECIMALS)) ∈ (handler m req env).events
    ∧ (handler m req env).resp.mintSignature = some env.sig2
    ∧ (handler m req env).resp.userTokenAccount = some env.ata := by
  rcases run_cases m req env with ⟨hc, he⟩ | ⟨hc, he⟩ | ⟨hc, h1, he⟩ | ⟨hc, h1, h2, he⟩
    | ⟨hc, h1, h2, h3, he⟩ | ⟨pv, hc, he⟩ | ⟨pv, hc1, hc2, he⟩ | ⟨pv, hc1, hc2, hc3, he⟩
    | ⟨pv, pec, hc, he⟩ | ⟨pv, pec, hc, hc2, he⟩ | ⟨pv, pec, hc, hc2, hc3, he⟩
    | ⟨pv, pec, hc, p1c, hc2, he⟩ | ⟨pv, pec, hc, p1c, hc2, hc3, he⟩
    | ⟨pv, pec, hc, p1c, hc2, hc3, hc4, he⟩
  · rw [he] at h200; simp [errResponse] at h200
  · rw [he] at h200; simp [errResponse] at h200
  · rw [he] at h200; simp [errResponse] at h200
  · rw [he] at h200; simp [errResponse] at h200
  · rw [he] at h200; simp [errResponse] at h200
  · rw [he] at h200; simp [errResponse] at h200
  · rw [he] at h200; simp [errResponse] at h200
  · rw [he] at h200; simp [errResponse] at h200
  · rw [he] at h200; simp [errResponse] at h200
  · rw [he] at h200; simp [errResponse] at h200
  · rw [he] at h200; simp [errResponse] at h200
  · rw [hN] at hc2; simp [jsGtZero] at hc2; omega
  · rw [he] at h200; simp [errResponse] at h200
  · rw [he]
    refine ⟨?_, by simp [successResponse], by simp [successResponse]⟩
    simp [phase2Events, confirm1Events, submit1Events, sizeCheckEvents, tx1Instrs,
      tx2Instrs, hN]

/-- C8 witness: Scenario A — amount 1000 mints exactly 10¹² base units and
reports the phase-2 signature and account. -/
theorem c8_witness :
    Event.built 2 (Instr.mintTo 1000000000000) ∈ (handler "POST" c8Req goodEnv).events
    ∧ (handler "POST" c8Req goodEnv).resp.mintSignature = some goodEnv.sig2 := by
  have h := c8_mint_amount_exact "POST" c8Req goodEnv 1000 rfl (by decide) (by decide)
  have e : (1000 : Int) * 10 ^ TOKEN_DECIMALS = 1000000000000 := by decide
  exact ⟨e ▸ h.1, h.2.1⟩

/-! ### C9 -/

/-- Request with the `prePurchaseAmount` field absent. -/
def c9Req : CreateTokenRequest :=
  { name := some "NoAmt", symbol := some "NA", description := none
    prePurchaseAmount := none, userWallet := some "W9" }

/-- C9: an absent `prePurchaseAmount` never triggers the negative-amount
rejection (JS `undefined < 0` is false) and never starts phase 2 (JS
`undefined > 0` is false): no phase-2 instruction is built or submitted and
the response carries no second signature and no funded-account address. -/
theorem c9_missing_amount_defaults (m : String) (req : CreateTokenRequest) (env : Env)
    (h : req.prePurchaseAmount = none) :
    ¬((handler m req env).resp.status = 400
        ∧ (handler m req env).resp.error = some "Pre-purchase amount cannot be negative")
    ∧ (handler m req env).resp.mintSignature = none
    ∧ (handler m req env).resp.userTokenAccount = none
    ∧ (∀ ix, Event.built 2 ix ∉ (handler m req env).events)
    ∧ Event.submitted 2 ∉ (handler m req env).events := by
  rcases run_cases m req env with ⟨hc, he⟩ | ⟨hc, he⟩ | ⟨hc, h1, he⟩ | ⟨hc, h1, h2, he⟩
    | ⟨hc, h1, h2, h3, he⟩ | ⟨pv, hc, he⟩ | ⟨pv, hc1, hc2, he⟩ | ⟨pv, hc1, hc2, hc3, he⟩
    | ⟨pv, pec, hc, he⟩ | ⟨pv, pec, hc, hc2, he⟩ | ⟨pv, pec, hc, hc2, hc3, he⟩
    | ⟨pv, pec, hc, p1c, hc2, he⟩ | ⟨pv, pec, hc, p1c, hc2, hc3, he⟩
    | ⟨pv, pec, hc, p1c, hc2, hc3, hc4, he⟩
  · rw [he]; exact ⟨by decide, by decide, by decide, fun ix => by simp, by decide⟩
  · rw [he]; exact ⟨by decide, by decide, by decide, fun ix => by simp, by decide⟩
  · rw [he]; exact ⟨by decide, by decide, by decide, fun ix => by simp, by decide⟩
  · rw [he]; exact ⟨by decide, by decide, by decide, fun ix => by simp, by decide⟩
  · rw [h] at h3; simp [jsLtZero] at h3
  · rw [he]; exact ⟨by decide, by decide, by decide, fun ix => by simp, by decide⟩
  · rw [he]; exact ⟨by decide, by decide, by decide, fun ix => by simp, by decide⟩
  · rw [he]; exact ⟨by decide, by decide, by decide, fun ix => by simp, by decide⟩
  · rw [he]; exact ⟨by decide, by decide, by decide, fun ix => by simp, by decide⟩
  · rw [he]
    refine ⟨by simp [errResponse], by simp [errResponse], by simp [errResponse],
      fun ix => ?_, ?_⟩
    · simp [sizeCheckEvents, tx1Instrs]
    · simp [sizeCheckEvents, tx1Instrs]
  · rw [he]
    refine ⟨by simp [errResponse], by simp [errResponse], by simp [errResponse],
      fun ix => ?_, ?_⟩
    · simp [submit1Events, sizeCheckEvents, tx1Instrs]
    · simp [submit1Events, sizeCheckEvents, tx1Instrs]
  · rw [he]
    refine ⟨by simp [successResponse], by simp [successResponse], by simp [successResponse],
      fun ix => ?_, ?_⟩
    · simp [confirm1Events, submit1Events, sizeCheckEvents, tx1Instrs]
    · simp [confirm1Events, submit1Events, sizeCheckEvents, tx1Instrs]
  · rw [h] at hc2; simp [jsGtZero] at hc2
  · rw [h] at hc2; simp [jsGtZero] at hc2

/-- C9 witness: the concrete amount-less request — no second signature, no
funded account, no phase-2 submission. -/
theorem c9_witness :
    (handler "POST" c9Req goodEnv).resp.mintSignature = none
    ∧ (handler "POST" c9Req goodEnv).resp.userTokenAccount = none
    ∧ Event.submitted 2 ∉ (handler "POST" c9Req goodEnv).events :=
  ⟨(c9_missing_amount_defaults "POST" c9Req goodEnv rfl).2.1,
   (c9_missing_amount_defaults "POST" c9Req goodEnv rfl).2.2.1,
   (c9_missing_amount_defaults "POST" c9Req goodEnv rfl).2.2.2.2⟩

/-! ### C4 -/

/-- A 201-character description. -/
def c4Desc : String := String.mk (List.replicate 201 'x')

/-- Request with an over-long description. -/
def c4Req : CreateTokenRequest :=
  { name := some "Longdesc", symbol := some "LD", description := some c4Desc
    prePurchaseAmount := some 0, userWallet := some "W4" }

/-- C4 counterexample: a 201-character description is not rejected and the
advisory warning is pushed — but the description is NOT truncated: the
response echoes all 201 characters back. -/
theorem c4_counterexample :
    (handler "POST" c4Req goodEnv).resp.status = 200
    ∧ (handler "POST" c4Req goodEnv).resp.description = some c4Desc
    ∧ c4Desc.length = 201
    ∧ (handler "POST" c4Req goodEnv).resp.warnings = some [truncationWarning] := by
  exact ⟨by decide, by decide, by decide, by decide⟩

/-- C4 (amended): a request whose description exceeds 200 characters is not
rejected on that account — a successful run includes the advisory warning —
but the description is echoed back verbatim, not truncated. -/
theorem c4_warn_without_truncation (m : String) (req : CreateTokenRequest) (env : Env)
    (d : String) (hd : req.description = some d) (hlen : d.length > 200)
    (h200 : (handler m req env).resp.status = 200) :
    (handler m req env).resp.description = some d
    ∧ (handler m req env).resp.warnings = some [truncationWarning] := by
  have hne : d ≠ "" := by
    intro e
    subst e
    simp at hlen
  have hdt : descTooLong req.description = true := by
    rw [hd]
    simp [descTooLong, hne]
    omega
  have hw : warningsOf req = [truncationWarning] := by simp [warningsOf, hdt]
  rcases run_cases m req env with ⟨hc, he⟩ | ⟨hc, he⟩ | ⟨hc, h1, he⟩ | ⟨hc, h1, h2, he⟩
    | ⟨hc, h1, h2, h3, he⟩ | ⟨pv, hc, he⟩ | ⟨pv, hc1, hc2, he⟩ | ⟨pv, hc1, hc2, hc3, he⟩
    | ⟨pv, pec, hc, he⟩ | ⟨pv, pec, hc, hc2, he⟩ | ⟨pv, pec, hc, hc2, hc3, he⟩
    | ⟨pv, pec, hc, p1c, hc2, he⟩ | ⟨pv, pec, hc, p1c, hc2, hc3, he⟩
    | ⟨pv, pec, hc, p1c, hc2, hc3, hc4, he⟩
  · rw [he] at h200; simp [errResponse] at h200
  · rw [he] at h200; simp [errResponse] at h200
  · rw [he] at h200; simp [errResponse] at h200
  · rw [he] at h200; simp [errResponse] at h200
  · rw [he] at h200; simp [errResponse] at h200
  · rw [he] at h200; simp [errResponse] at h200
  · rw [he] at h200; simp [errResponse] at h200
  · rw [he] at h200; simp [errResponse] at h200
  · rw [he] at h200; simp [errResponse] at h200
  · rw [he] at h200; simp [errResponse] at h200
  · rw [he] at h200; simp [errResponse] at h200
  · rw [he]; exact ⟨by simp [successResponse, hd], by simp [successResponse, hw]⟩
  · rw [he] at h200; simp [errResponse] at h200
  · rw [he]; exact ⟨by simp [successResponse, hd], by simp [successResponse, hw]⟩

/-- C4 witness: the concrete 201-character-description request goes through
the amended theorem. -/
theorem c4_witness :
    (handler "POST" c4Req goodEnv).resp.description = some c4Desc
    ∧ (handler "POST" c4Req goodEnv).resp.warnings = some [truncationWarning] :=
  c4_warn_without_truncation "POST" c4Req goodEnv c4Desc rfl (by decide) (by decide)

/-! ### C5 -/

/-- Request with a lower-case symbol. -/
def c5Req : CreateTokenRequest :=
  { name := some "Lower", symbol := some "abc", description := none
    prePurchaseAmount := some 0, userWallet := some "W5" }

/-- C5 counterexample: a lower-case input symbol reaches the metadata
instruction and the response unchanged — no upper-casing happens anywhere
in the route. -/
theorem c5_counterexample :
    Event.built 1 (Instr.createMetadataV3 "Lower" "abc" "") ∈ (handler "POST" c5Req goodEnv).events
    ∧ (handler "POST" c5Req goodEnv).resp.symbol = some "abc"
    ∧ "abc".data.map Char.toUpper = "ABC".data
    ∧ ("abc" : String) ≠ "ABC" := by
  exact ⟨by decide, by decide, by decide, by decide⟩

/-- C5 (amended): the route performs no case normalization — a successful
run places `symbol.substring(0, 10)` of the symbol exactly as received into
the metadata instruction and echoes the received symbol in the response
(the client form upper-cases before sending, outside this route). -/
theorem c5_symbol_not_normalized (m : String) (req : CreateTokenRequest) (env : Env)
    (n s : String) (hn : req.name = some n) (hs : req.symbol = some s)
    (h200 : (handler m req env).resp.status = 200) :
    (handler m req env).resp.symbol = some s
    ∧ Event.built 1 (Instr.createMetadataV3 (n.take 32) (s.take 10) "")
        ∈ (handler m req env).events := by
  rcases run_cases m req env with ⟨hc, he⟩ | ⟨hc, he⟩ | ⟨hc, h1, he⟩ | ⟨hc, h1, h2, he⟩
    | ⟨hc, h1, h2, h3, he⟩ | ⟨pv, hc, he⟩ | ⟨pv, hc1, hc2, he⟩ | ⟨pv, hc1, hc2, hc3, he⟩
    | ⟨pv, pec, hc, he⟩ | ⟨pv, pec, hc, hc2, he⟩ | ⟨pv, pec, hc, hc2, hc3, he⟩
    | ⟨pv, pec, hc, p1c, hc2, he⟩ | ⟨pv, pec, hc, p1c, hc2, hc3, he⟩
    | ⟨pv, pec, hc, p1c, hc2, hc3, hc4, he⟩
  · rw [he] at h200; simp [errResponse] at h200
  · rw [he] at h200; simp [errResponse] at h200
  · rw [he] at h200; simp [errResponse] at h200
  · rw [he] at h200; simp [errResponse] at h200
  · rw [he] at h200; simp [errResponse] at h200
  · rw [he] at h200; simp [errResponse] at h200
  · rw [he] at h200; simp [errResponse] at h200
  · rw [he] at h200; simp [errResponse] at h200
  · rw [he] at h200; simp [errResponse] at h200
  · rw [he] at h200; simp [errResponse] at h200
  · rw [he] at h200; simp [errResponse] at h200
  · rw [he]
    refine ⟨by simp [successResponse, hs], ?_⟩
    simp [confirm1Events, submit1Events, sizeCheckEvents, tx1Instrs, hn, hs]
  · rw [he] at h200; simp [errResponse] at h200
  · rw [he]
    refine ⟨by simp [successResponse, hs], ?_⟩
    simp [phase2Events, confirm1Events, submit1Events, sizeCheckEvents, tx1Instrs,
      tx2Instrs, hn, hs]

/-- C5 witness: the concrete lower-case-symbol request goes through the
amended theorem. -/
theorem c5_witness :
    (handler "POST" c5Req goodEnv).resp.symbol = some "abc"
    ∧ Event.built 1 (Instr.createMetadataV3 ("Lower".take 32) ("abc".take 10) "")
        ∈ (handler "POST" c5Req goodEnv).events :=
  c5_symbol_not_normalized "POST" c5Req goodEnv "Lower" "abc" rfl rfl (by decide)

/-! ### C10 -/

/-- The phase-2 trace does not depend on the request beyond its amount, nor
on the warning list. -/
theorem runPhase2_events_congr (req1 req2 : CreateTokenRequest) (env : Env)
    (ws1 ws2 : List String) (ev3 : List Event)
    (hpa : req1.prePurchaseAmount = req2.prePurchaseAmount) :
    (runPhase2 req1 env ws1 ev3).events = (runPhase2 req2 env ws2 ev3).events := by
  cases h12 : env.phase2SendOk with
  | false =>
    rw [runPhase2_sendFail req1 env ws1 ev3 h12, runPhase2_sendFail req2 env ws2 ev3 h12]
    simp [phase2Events, hpa]
  | true =>
    cases h13 : env.phase2ConfirmOk with
    | false =>
      rw [runPhase2_confirmFail req1 env ws1 ev3 h12 h13,
        runPhase2_confirmFail req2 env ws2 ev3 h12 h13]
      simp [phase2Events, hpa]
    | true =>
      rw [runPhase2_success req1 env ws1 ev3 h12 h13,
        runPhase2_success req2 env ws2 ev3 h12 h13]
      simp [phase2Events, hpa]

/-- The phase-1 trace does not depend on the request beyond its amount, nor
on the warning list. -/
theorem runPhase1_events_congr (name symbol : String) (req1 req2 : CreateTokenRequest)
    (env : Env) (ws1 ws2 : List String)
    (hpa : req1.prePurchaseAmount = req2.prePurchaseAmount) :
    (runPhase1 name symbol req1 env ws1).events = (runPhase1 name symbol req2 env ws2).events := by
  by_cases h8 : env.tx1Size > MAX_TRANSACTION_SIZE
  · rw [runPhase1_tooLarge name symbol req1 env ws1 h8,
      runPhase1_tooLarge name symbol req2 env ws2 h8]
  cases h9 : env.phase1SendOk with
  | false =>
    rw [runPhase1_sendFail name symbol req1 env ws1 h8 h9,
      runPhase1_sendFail name symbol req2 env ws2 h8 h9]
  | true =>
    cases h10 : env.phase1ConfirmOk with
    | false =>
      rw [runPhase1_confirmFail name symbol req1 env ws1 h8 h9 h10,
        runPhase1_confirmFail name symbol req2 env ws2 h8 h9 h10]
    | true =>
      cases h11 : jsGtZero req1.prePurchaseAmount with
      | false =>
        rw [runPhase1_single name symbol req1 env ws1 h8 h9 h10 h11,
          runPhase1_single name symbol req2 env ws2 h8 h9 h10 (hpa ▸ h11)]
      | true =>
        rw [runPhase1_phase2 name symbol req1 env ws1 h8 h9 h10 h11,
          runPhase1_phase2 name symbol req2 env ws2 h8 h9 h10 (hpa ▸ h11)]
        exact runPhase2_events_congr req1 req2 env ws1 ws2 _ hpa

/-- The trace from the balance check on does not depend on the request
beyond its amount, nor on the warning list. -/
theorem checkBalance_events_congr (name symbol : String) (req1 req2 : CreateTokenRequest)
    (env : Env) (ws1 ws2 : List String)
    (hpa : req1.prePurchaseAmount = req2.prePurchaseAmount) :
    (checkBalance name symbol req1 env ws1).events
      = (checkBalance name symbol req2 env ws2).events := by
  by_cases h7 : env.backendBalance < requiredLamports env
  · rw [checkBalance_insufficient name symbol req1 env ws1 h7,
      checkBalance_insufficient name symbol req2 env ws2 h7]
  · rw [checkBalance_cont name symbol req1 env ws1 h7, checkBalance_cont name symbol req2 env ws2 h7]
    exact runPhase1_events_congr name symbol req1 req2 env ws1 ws2 hpa

/-- The trace from the environment checks on does not depend on the request
beyond its amount, nor on the warning list. -/
theorem checkEnvironment_events_congr (name symbol : String) (req1 req2 : CreateTokenRequest)
    (env : Env) (ws1 ws2 : List String)
    (hpa : req1.prePurchaseAmount = req2.prePurchaseAmount) :
    (checkEnvironment name symbol req1 env ws1).events
      = (checkEnvironment name symbol req2 env ws2).events := by
  cases h4 : env.backendKeyConfigured with
  | false =>
    rw [checkEnvironment_noKey name symbol req1 env ws1 h4,
      checkEnvironment_noKey name symbol req2 env ws2 h4]
  | true =>
    cases h5 : env.backendKeyValid with
    | false =>
      rw [checkEnvironment_badKey name symbol req1 env ws1 h4 h5,
        checkEnvironment_badKey name symbol req2 env ws2 h4 h5]
    | true =>
      cases h6 : env.userWalletValid with
      | false =>
        rw [checkEnvironment_badWallet name symbol req1 env ws1 h4 h5 h6,
          checkEnvironment_badWallet name symbol req2 env ws2 h4 h5 h6]
      | true =>
        rw [checkEnvironment_cont name symbol req1 env ws1 h4 h5 h6,
          checkEnvironment_cont name symbol req2 env ws2 h4 h5 h6]
        exact checkBalance_events_congr name symbol req1 req2 env ws1 ws2 hpa

/-- Changing only the description of a request leaves the whole event trace
of the run unchanged. -/
theorem handler_events_desc_congr (m : String) (na sy de1 de2 : Option String)
    (pa : Option Int) (uw : Option String) (env : Env) :
    (handler m ⟨na, sy, de1, pa, uw⟩ env).events
      = (handler m ⟨na, sy, de2, pa, uw⟩ env).events := by
  cases hm : (m != "POST") with
  | true => simp [handler, hm]
  | false =>
    have e1 : handler m (⟨na, sy, de1, pa, uw⟩ : CreateTokenRequest) env
        = validate ⟨na, sy, de1, pa, uw⟩ env := by simp [handler, hm]
    have e2 : handler m (⟨na, sy, de2, pa, uw⟩ : CreateTokenRequest) env
        = validate ⟨na, sy, de2, pa, uw⟩ env := by simp [handler, hm]
    rw [e1, e2]
    cases h0 : (!present na || !present sy || !present uw) with
    | true =>
      rw [validate_missing ⟨na, sy, de1, pa, uw⟩ env h0,
        validate_missing ⟨na, sy, de2, pa, uw⟩ env h0]
    | false =>
      by_cases h1 : (na.getD "").length > 32
      · rw [validate_nameLong ⟨na, sy, de1, pa, uw⟩ env h0 h1,
          validate_nameLong ⟨na, sy, de2, pa, uw⟩ env h0 h1]
      by_cases h2 : (sy.getD "").length > 10
      · rw [validate_symbolLong ⟨na, sy, de1, pa, uw⟩ env h0 h1 h2,
          validate_symbolLong ⟨na, sy, de2, pa, uw⟩ env h0 h1 h2]
      cases h3 : jsLtZero pa with
      | true =>
        rw [validate_negative ⟨na, sy, de1, pa, uw⟩ env h0 h1 h2 h3,
          validate_negative ⟨na, sy, de2, pa, uw⟩ env h0 h1 h2 h3]
      | false =>
        rw [validate_cont ⟨na, sy, de1, pa, uw⟩ env h0 h1 h2 h3,
          validate_cont ⟨na, sy, de2, pa, uw⟩ env h0 h1 h2 h3]
        exact checkEnvironment_events_congr (na.getD "") (sy.getD "")
          ⟨na, sy, de1, pa, uw⟩ ⟨na, sy, de2, pa, uw⟩ env _ _ rfl

/-- C10: the description has no on-chain effect — replacing it changes no
event of the run; every metadata instruction ever built carries the empty
uri; and a successful response echoes the description verbatim. -/
theorem c10_description_offchain (m : String) (req : CreateTokenRequest) (env : Env)
    (d2 : Option String) :
    (handler m { req with description := d2 } env).events = (handler m req env).events
    ∧ (∀ p nm sm u,
        Event.built p (Instr.createMetadataV3 nm sm u) ∈ (handler m req env).events → u = "")
    ∧ ((handler m req env).resp.status = 200 →
        (handler m req env).resp.description = req.description) := by
  refine ⟨?_, ?_, ?_⟩
  · obtain ⟨na, sy, de, pa, uw⟩ := req
    exact handler_events_desc_congr m na sy d2 de pa uw env
  · intro p nm sm u hmem
    rcases run_cases m req env with ⟨hc, he⟩ | ⟨hc, he⟩ | ⟨hc, h1, he⟩ | ⟨hc, h1, h2, he⟩
      | ⟨hc, h1, h2, h3, he⟩ | ⟨pv, hc, he⟩ | ⟨pv, hc1, hc2, he⟩ | ⟨pv, hc1, hc2, hc3, he⟩
      | ⟨pv, pec, hc, he⟩ | ⟨pv, pec, hc, hc2, he⟩ | ⟨pv, pec, hc, hc2, hc3, he⟩
      | ⟨pv, pec, hc, p1c, hc2, he⟩ | ⟨pv, pec, hc, p1c, hc2, hc3, he⟩
      | ⟨pv, pec, hc, p1c, hc2, hc3, hc4, he⟩
    · rw [he] at hmem; simp at hmem
    · rw [he] at hmem; simp at hmem
    · rw [he] at hmem; simp at hmem
    · rw [he] at hmem; simp at hmem
    · rw [he] at hmem; simp at hmem
    · rw [he] at hmem; simp at hmem
    · rw [he] at hmem; simp at hmem
    · rw [he] at hmem; simp at hmem
    · rw [he] at hmem; simp at hmem
    · rw [he] at hmem
      simp [sizeCheckEvents, tx1Instrs] at hmem
      exact hmem.2.2.2
    · rw [he] at hmem
      simp [submit1Events, sizeCheckEvents, tx1Instrs] at hmem
      exact hmem.2.2.2
    · rw [he] at hmem
      simp [confirm1Events, submit1Events, sizeCheckEvents, tx1Instrs] at hmem
      exact hmem.2.2.2
    · rw [he] at hmem
      simp [phase2Events, confirm1Events, submit1Events, sizeCheckEvents, tx1Instrs,
        tx2Instrs] at hmem
      exact hmem.2.2.2
    · rw [he] at hmem
      simp [phase2Events, confirm1Events, submit1Events, sizeCheckEvents, tx1Instrs,
        tx2Instrs] at hmem
      exact hmem.2.2.2
  · intro h200
    rcases run_cases m req env with ⟨hc, he⟩ | ⟨hc, he⟩ | ⟨hc, h1, he⟩ | ⟨hc, h1, h2, he⟩
      | ⟨hc, h1, h2, h3, he⟩ | ⟨pv, hc, he⟩ | ⟨pv, hc1, hc2, he⟩ | ⟨pv, hc1, hc2, hc3, he⟩
      | ⟨pv, pec, hc, he⟩ | ⟨pv, pec, hc, hc2, he⟩ | ⟨pv, pec, hc, hc2, hc3, he⟩
      | ⟨pv, pec, hc, p1c, hc2, he⟩ | ⟨pv, pec, hc, p1c, hc2, hc3, he⟩
      | ⟨pv, pec, hc, p1c, hc2, hc3, hc4, he⟩
    · rw [he] at h200; simp [errResponse] at h200
    · rw [he] at h200; simp [errResponse] at h200
    · rw [he] at h200; simp [errResponse] at h200
    · rw [he] at h200; simp [errResponse] at h200
    · rw [he] at h200; simp [errResponse] at h200
    · rw [he] at h200; simp [errResponse] at h200
    · rw [he] at h200; simp [errResponse] at h200
    · rw [he] at h200; simp [errResponse] at h200
    · rw [he] at h200; simp [errResponse] at h200
    · rw [he] at h200; simp [errResponse] at h200
    · rw [he] at h200; simp [errResponse] at h200
    · rw [he]; simp [successResponse]
    · rw [he] at h200; simp [errResponse] at h200
    · rw [he]; simp [successResponse]

/-- Request with a description, for the C10 witness. -/
def c10Req : CreateTokenRequest :=
  { name := some "Described", symbol := some "DSC", description := some "hello"
    prePurchaseAmount := some 0, userWallet := some "W10" }

/-- C10 witness: swapping the description changes no event of the concrete
run, and the success response echoes the description verbatim. -/
theorem c10_witness :
    (handler "POST" { c10Req with description := some "other" } goodEnv).events
      = (handler "POST" c10Req goodEnv).events
    ∧ (handler "POST" c10Req goodEnv).resp.description = some "hello" :=
  ⟨(c10_description_offchain "POST" c10Req goodEnv (some "other")).1,
   (c10_description_offchain "POST" c10Req goodEnv (some "other")).2.2 (by decide)⟩

end TransactionTest
